import Mathlib

/-!
Verification of the LINE → OpenClaw webhook proxy.

Shallow embedding of `index.js` (the webhook relay): signature
verification (HMAC-SHA256 + base64 + constant-time compare), the
completion client `postToOpenClaw`, the loading-seconds normalizer,
the webhook endpoint, and the per-event orchestration loop, together
with proofs of the specified properties.

Bytes are modelled as `Nat` values `< 256` (produced `% 256` where the
code produces bytes); buffers and strings-of-bytes are `List Nat`.
-/

namespace LineProxy

set_option maxRecDepth 100000

/-! ## SHA-256 (as computed by node's `crypto.createHmac("sha256", ·)`) -/

/-- Truncate to a 32-bit word. -/
def w32 (x : Nat) : Nat := x % 4294967296

/-- Right rotation of a 32-bit word. -/
def rotr (n x : Nat) : Nat := w32 ((x >>> n) ||| (x <<< (32 - n)))

/-- The 64 SHA-256 round constants (FIPS 180-4, written in decimal). -/
def shaK : List Nat :=
  [1116352408, 1899447441, 3049323471, 3921009573, 961987163, 1508970993,
   2453635748, 2870763221, 3624381080, 310598401, 607225278, 1426881987,
   1925078388, 2162078206, 2614888103, 3248222580, 3835390401, 4022224774,
   264347078, 604807628, 770255983, 1249150122, 1555081692, 1996064986,
   2554220882, 2821834349, 2952996808, 3210313671, 3336571891, 3584528711,
   113926993, 338241895, 666307205, 773529912, 1294757372, 1396182291,
   1695183700, 1986661051, 2177026350, 2456956037, 2730485921, 2820302411,
   3259730800, 3345764771, 3516065817, 3600352804, 4094571909, 275423344,
   430227734, 506948616, 659060556, 883997877, 958139571, 1322822218,
   1537002063, 1747873779, 1955562222, 2024104815, 2227730452, 2361852424,
   2428436474, 2756734187, 3204031479, 3329325298]

/-- The eight working/hash words of the SHA-256 state. -/
structure Hs where
  a : Nat
  b : Nat
  c : Nat
  d : Nat
  e : Nat
  f : Nat
  g : Nat
  h : Nat

/-- SHA-256 initial hash value (FIPS 180-4, written in decimal). -/
def initH : Hs :=
  ⟨1779033703, 3144134277, 1013904242, 2773480762,
   1359893119, 2600822924, 528734635, 1541459225⟩

/-- Big-endian 32-bit word read from byte position `4*i` of a block. -/
def word32At (block : List Nat) (i : Nat) : Nat :=
  (block.getD (4 * i) 0) <<< 24 ||| (block.getD (4 * i + 1) 0) <<< 16 |||
    (block.getD (4 * i + 2) 0) <<< 8 ||| block.getD (4 * i + 3) 0

/-- The 64-entry SHA-256 message schedule of one 64-byte block. -/
def schedule (block : List Nat) : List Nat :=
  let w0 := (List.range 16).map (word32At block)
  (List.range 48).foldl
    (fun w _ =>
      let n := w.length
      let x15 := w.getD (n - 15) 0
      let x2 := w.getD (n - 2) 0
      let s0 := (rotr 7 x15) ^^^ (rotr 18 x15) ^^^ (x15 >>> 3)
      let s1 := (rotr 17 x2) ^^^ (rotr 19 x2) ^^^ (x2 >>> 10)
      w ++ [w32 (w.getD (n - 16) 0 + s0 + w.getD (n - 7) 0 + s1)])
    w0

/-- One SHA-256 compression round. -/
def shaStep (s : Hs) (k w : Nat) : Hs :=
  let S1 := (rotr 6 s.e) ^^^ (rotr 11 s.e) ^^^ (rotr 25 s.e)
  let ch := (s.e &&& s.f) ^^^ ((s.e ^^^ 0xffffffff) &&& s.g)
  let t1 := w32 (s.h + S1 + ch + k + w)
  let S0 := (rotr 2 s.a) ^^^ (rotr 13 s.a) ^^^ (rotr 22 s.a)
  let mj := (s.a &&& s.b) ^^^ (s.a &&& s.c) ^^^ (s.b &&& s.c)
  let t2 := w32 (S0 + mj)
  ⟨w32 (t1 + t2), s.a, s.b, s.c, w32 (s.d + t1), s.e, s.f, s.g⟩

/-- Compress one 64-byte block into the running hash state. -/
def compress (h0 : Hs) (block : List Nat) : Hs :=
  let s := ((shaK.zip (schedule block)).foldl (fun s p => shaStep s p.1 p.2) h0)
  ⟨w32 (h0.a + s.a), w32 (h0.b + s.b), w32 (h0.c + s.c), w32 (h0.d + s.d),
   w32 (h0.e + s.e), w32 (h0.f + s.f), w32 (h0.g + s.g), w32 (h0.h + s.h)⟩

/-- SHA-256 padding: `0x80`, zeros, then the 64-bit big-endian bit length. -/
def padMsg (msg : List Nat) : List Nat :=
  let L := msg.length
  let bitLen := 8 * L
  let z := (119 - L % 64) % 64
  msg ++ [0x80] ++ List.replicate z 0 ++
    [bitLen >>> 56 % 256, bitLen >>> 48 % 256, bitLen >>> 40 % 256,
     bitLen >>> 32 % 256, bitLen >>> 24 % 256, bitLen >>> 16 % 256,
     bitLen >>> 8 % 256, bitLen % 256]

/-- Split a byte list into 64-byte chunks (fuel-based so that it reduces). -/
def chunksAux : Nat → List Nat → List (List Nat)
  | 0, _ => []
  | _ + 1, [] => []
  | fuel + 1, l => l.take 64 :: chunksAux fuel (l.drop 64)

/-- Split a byte list into 64-byte chunks. -/
def chunks64 (l : List Nat) : List (List Nat) := chunksAux (l.length + 1) l

/-- Big-endian bytes of a 32-bit word. -/
def wordBytes (w : Nat) : List Nat :=
  [w / 16777216 % 256, w / 65536 % 256, w / 256 % 256, w % 256]

/-- SHA-256 digest (32 bytes) of a byte list. -/
def sha256 (msg : List Nat) : List Nat :=
  let s := (chunks64 (padMsg msg)).foldl compress initH
  wordBytes s.a ++ wordBytes s.b ++ wordBytes s.c ++ wordBytes s.d ++
    wordBytes s.e ++ wordBytes s.f ++ wordBytes s.g ++ wordBytes s.h

/-- HMAC-SHA256 with a 64-byte block size, as in node `crypto.createHmac`. -/
def hmacSha256 (key msg : List Nat) : List Nat :=
  let k0 := if 64 < key.length then sha256 key else key
  let kp := k0 ++ List.replicate (64 - k0.length) 0
  let ipad := kp.map (fun b => b ^^^ 0x36)
  let opad := kp.map (fun b => b ^^^ 0x5c)
  sha256 (opad ++ sha256 (ipad ++ msg))

/-! ## Base64 (`digest("base64")` of node, standard alphabet with `=` padding) -/

/-- The base64 alphabet. -/
def b64chars : List Char :=
  "ABCDEFGHIJKLMNOPQRSTUVWXYZabcdefghijklmnopqrstuvwxyz0123456789+/".toList

/-- The base64 character of a 6-bit value. -/
def b64enc (i : Nat) : Char := b64chars.getD i 'A'

/-- Base64 encoding of a byte list. -/
def base64Encode : List Nat → List Char
  | [] => []
  | [b1] => [b64enc (b1 / 4), b64enc (b1 % 4 * 16), '=', '=']
  | [b1, b2] =>
      [b64enc (b1 / 4), b64enc (b1 % 4 * 16 + b2 / 16), b64enc (b2 % 16 * 4), '=']
  | b1 :: b2 :: b3 :: rest =>
      b64enc (b1 / 4) :: b64enc (b1 % 4 * 16 + b2 / 16) ::
        b64enc (b2 % 16 * 4 + b3 / 64) :: b64enc (b3 % 64) :: base64Encode rest

/-- Base64 encoding as ASCII bytes (what `Buffer.from(expected)` holds). -/
def base64Bytes (l : List Nat) : List Nat := (base64Encode l).map Char.toNat

/-! ## Signature verification (`verifySignature`, part_000 lines 89–100)

`crypto.timingSafeEqual` THROWS when the two buffers have different
lengths; we model the thrown exception as `none`.  `verifySignature`
returns `Option Bool`: `some b` is a normal return of `b`, `none` is an
uncaught exception. -/

/-- `crypto.timingSafeEqual`: constant-time equality, throws (`none`) on
length mismatch. -/
def timingSafeEqual (a b : List Nat) : Option Bool :=
  if a.length = b.length then some (a == b) else none

/-- `verifySignature(rawBody, signature)`: `!signature` guard, HMAC-SHA256
base64 digest, explicit length guard, then `timingSafeEqual`.  The channel
secret is passed explicitly (the source reads it from a module constant). -/
def verifySignature (secret rawBody signature : List Nat) : Option Bool :=
  if signature.isEmpty then some false
  else if (base64Bytes (hmacSha256 secret rawBody)).length ≠ signature.length then
    some false
  else timingSafeEqual (base64Bytes (hmacSha256 secret rawBody)) signature

/-- ASCII bytes of a string (how `Buffer.from(string)` encodes ASCII text). -/
def strBytes (s : String) : List Nat := s.toList.map Char.toNat

theorem sha256_length (msg : List Nat) : (sha256 msg).length = 32 := by
  simp [sha256, wordBytes]

theorem hmacSha256_length (key msg : List Nat) : (hmacSha256 key msg).length = 32 := by
  simp only [hmacSha256]
  exact sha256_length _

theorem base64Encode_ne_nil (l : List Nat) (h : l ≠ []) : base64Encode l ≠ [] := by
  match l with
  | [] => exact absurd rfl h
  | [b1] => simp [base64Encode]
  | [b1, b2] => simp [base64Encode]
  | b1 :: b2 :: b3 :: rest => simp [base64Encode]

theorem base64Bytes_ne_nil (l : List Nat) (h : l ≠ []) : base64Bytes l ≠ [] := by
  simp only [base64Bytes, ne_eq, List.map_eq_nil_iff]
  exact base64Encode_ne_nil l h

theorem hmac_b64_ne_nil (secret body : List Nat) :
    base64Bytes (hmacSha256 secret body) ≠ [] := by
  apply base64Bytes_ne_nil
  intro h
  have := hmacSha256_length secret body
  rw [h] at this
  simp at this

theorem verifySignature_ok_iff (secret body sig : List Nat) :
    verifySignature secret body sig = some true ↔
      sig = base64Bytes (hmacSha256 secret body) := by
  constructor
  · intro h
    unfold verifySignature at h
    split at h
    · simp at h
    · split at h
      · simp at h
      · unfold timingSafeEqual at h
        split at h
        · simp only [Option.some.injEq, beq_iff_eq] at h
          exact h.symm
        · simp at h
  · intro h
    subst h
    unfold verifySignature
    rw [if_neg, if_neg]
    · unfold timingSafeEqual
      simp
    · simp
    · simp only [List.isEmpty_eq_true]
      exact hmac_b64_ne_nil secret body

theorem verifySignature_isSome (secret body sig : List Nat) :
    (verifySignature secret body sig).isSome = true := by
  unfold verifySignature
  split
  · rfl
  · split
    · rfl
    · unfold timingSafeEqual
      rw [if_pos]
      · rfl
      · omega

/-- C1: `verifySignature` accepts the base64 HMAC-SHA256 of the exact raw
bytes under the channel secret, and accepts nothing else: for every secret
and body, the genuine signature verifies as valid, and an arbitrary supplied
signature verifies as valid exactly when it equals the genuine one (so any
mutation of the signature, or any mutation of the body that changes the
HMAC, flips the result to invalid). -/
theorem verifySignature_valid_iff (secret body : List Nat) :
    verifySignature secret body (base64Bytes (hmacSha256 secret body)) = some true ∧
      ∀ sig, (verifySignature secret body sig = some true ↔
        sig = base64Bytes (hmacSha256 secret body)) :=
  ⟨(verifySignature_ok_iff secret body _).mpr rfl,
   fun sig => verifySignature_ok_iff secret body sig⟩

/-- C9 (counterexample): an empty raw body does NOT always yield `invalid`:
with channel secret `"s"` (byte `115`) and the genuine base64 HMAC-SHA256 of
the empty byte string supplied as the signature, verification of the empty
body returns `valid`. -/
theorem verifySignature_empty_body_counterexample :
    verifySignature (strBytes "s") []
      (strBytes "ZOygfM5nkpw1fWPQpK7CB+d0gAQDKYkU/ATojOAqxJ8=") = some true := by
  decide

/-- C9 (amended): signature verification never throws for any input (in
particular the length-mismatch path returns `invalid` instead of letting
`timingSafeEqual` throw, modelled as `none`); an empty or absent signature
header yields `invalid` for every body; and an empty body yields `invalid`
for every supplied signature except the genuine base64 HMAC of the empty
byte string. -/
theorem verifySignature_total_and_empty_invalid :
    (∀ secret body sig, (verifySignature secret body sig).isSome = true) ∧
      (∀ secret body, verifySignature secret body [] = some false) ∧
      (∀ secret sig, sig ≠ base64Bytes (hmacSha256 secret []) →
        verifySignature secret [] sig = some false) := by
  refine ⟨verifySignature_isSome, ?_, ?_⟩
  · intro secret body
    unfold verifySignature
    rw [if_pos]
    rfl
  · intro secret sig hne
    have h1 := verifySignature_ok_iff secret [] sig
    rcases hs : verifySignature secret [] sig with _ | b
    · have := verifySignature_isSome secret [] sig
      rw [hs] at this
      simp at this
    · rcases b with _ | _
      · rfl
      · rw [hs] at h1
        exact absurd (h1.mp rfl) hne

/-- Witness for the amended C9 theorem at concrete inputs: secret `"s"`,
body missing/empty, signature the single byte `48` (not the genuine HMAC). -/
theorem verifySignature_total_and_empty_invalid_witness :
    (verifySignature (strBytes "s") (strBytes "x") [97]).isSome = true ∧
      verifySignature (strBytes "s") (strBytes "body") [] = some false ∧
      verifySignature (strBytes "s") [] [48] = some false :=
  ⟨verifySignature_total_and_empty_invalid.1 _ _ _,
   verifySignature_total_and_empty_invalid.2.1 _ _,
   verifySignature_total_and_empty_invalid.2.2 (strBytes "s") [48] (by decide)⟩

/-! ## JavaScript values

A minimal JSON/JS value universe for request/response bodies and events.
`Option Js` is used where JS has `undefined` (absent property); `Js.null`
is the explicit JSON `null`. -/

/-- A JavaScript (JSON) value. -/
inductive Js where
  | null
  | bool (b : Bool)
  | num (n : Int)
  | str (s : String)
  | arr (elems : List Js)
  | obj (fields : List (String × Js))

/-- Property access `v?.k` (`none` = `undefined`). -/
def jsField (v : Js) (k : String) : Option Js :=
  match v with
  | .obj fields => (fields.find? (fun p => p.1 == k)).map (fun p => p.2)
  | _ => none

/-- Element access `v?.[n]` (arrays, numeric object keys, string chars). -/
def jsIndex (v : Js) (n : Nat) : Option Js :=
  match v with
  | .arr l => l.get? n
  | .obj fields => ((fields.find? (fun p => p.1 == toString n))).map (fun p => p.2)
  | .str s => (s.toList.get? n).map (fun c => Js.str (String.mk [c]))
  | _ => none

/-- Nullish coalescing `o ?? d`: `undefined` and `null` fall through. -/
def orNullish (o : Option Js) (d : Js) : Js :=
  match o with
  | none => d
  | some .null => d
  | some v => v

/-- JS truthiness. -/
def jsTruthy : Js → Bool
  | .null => false
  | .bool b => b
  | .num n => n != 0
  | .str s => s != ""
  | .arr _ => true
  | .obj _ => true

mutual

/-- `String(v)` coercion (arrays join with `","`, plain objects print as
`"[object Object]"`). -/
def jsToString : Js → String
  | .null => "null"
  | .bool true => "true"
  | .bool false => "false"
  | .num n => toString n
  | .str s => s
  | .arr l => jsJoinArr l
  | .obj _ => "[object Object]"

/-- The array join with `","` over the stringified elements. -/
def jsJoinArr : List Js → String
  | [] => ""
  | [x] => jsElemStr x
  | x :: y :: xs => jsElemStr x ++ "," ++ jsJoinArr (y :: xs)

/-- Inside a join, `null` renders as the empty string. -/
def jsElemStr : Js → String
  | .null => ""
  | v => jsToString v

end

/-- JS whitespace (the characters relevant to this code's payloads). -/
def jsWhitespace (c : Char) : Bool := c == ' ' || c == '\t' || c == '\n' || c == '\r'

/-- `s.trim()`. -/
def jsTrim (s : String) : String :=
  String.mk (((s.toList.dropWhile jsWhitespace).reverse.dropWhile jsWhitespace).reverse)

/-! ## Completion client (`postToOpenClaw`, part_000 lines 102–141) -/

/-- `data?.choices?.[0]`. -/
def choice0 (data : Js) : Option Js :=
  (jsField data "choices").bind (fun c => jsIndex c 0)

/-- `data?.choices?.[0]?.message?.content`. -/
def contentChain (data : Js) : Option Js :=
  ((choice0 data).bind (fun c => jsField c "message")).bind (fun m => jsField m "content")

/-- `data?.choices?.[0]?.text`. -/
def textChain (data : Js) : Option Js :=
  (choice0 data).bind (fun c => jsField c "text")

/-- `String(content ?? text ?? "").trim()` — the reply-text extraction of
`postToOpenClaw` (part_000 lines 135–140). -/
def extractText (data : Js) : String :=
  jsTrim (jsToString (orNullish (contentChain data) (orNullish (textChain data) (Js.str ""))))

/-- The failures `postToOpenClaw` can throw, with the exact `Error` message
each one carries. -/
inductive OcError where
  | timeout (timeoutMs : Int)
  | upstream (status : Nat) (body : String)
  | network (msg : String)

/-- The `message` string of the thrown `Error`. -/
def errorMessage : OcError → String
  | .timeout ms => "OpenClaw timeout after " ++ toString ms ++ "ms"
  | .upstream status body => "OpenClaw ingest failed: " ++ toString status ++ " " ++ body
  | .network msg => msg

/-- `startsWithChars sub l`: `l` begins with `sub`. -/
def startsWithChars : List Char → List Char → Bool
  | [], _ => true
  | _ :: _, [] => false
  | a :: sub, b :: l => a == b && startsWithChars sub l

/-- `containsSub sub l`: `sub` occurs contiguously inside `l`. -/
def containsSub (sub : List Char) : List Char → Bool
  | [] => sub.isEmpty
  | c :: tl => startsWithChars sub (c :: tl) || containsSub sub tl

/-- `s.includes(sub)` of JS. -/
def strIncludes (s sub : String) : Bool := containsSub sub.toList s.toList

/-- `isTimeoutError` (part_000 lines 214–216): substring test on the message. -/
def isTimeoutError (e : OcError) : Bool := strIncludes (errorMessage e) "OpenClaw timeout"

/-- What the environment does with one outbound `fetch` of the completion
client: a response (with status, JSON-parsed body if parseable, and text
body), an abort (the deadline timer fired and cancelled the call), or a
network-level rejection. -/
inductive FetchResult where
  | response (status : Nat) (jsonBody : Option Js) (textBody : String)
  | abortError
  | networkFailure (msg : String)

/-- `postToOpenClaw(payload, timeoutMs)` outcome given the environment's
behaviour `r`: an `AbortError` becomes the distinguished timeout `Error`,
other rejections are rethrown, non-2xx responses throw the upstream
`Error` carrying status and text body, and 2xx responses yield the
extracted text (a JSON parse failure acts as `{}`). -/
def postToOpenClaw (timeoutMs : Int) (r : FetchResult) : Except OcError String :=
  match r with
  | .abortError => .error (.timeout timeoutMs)
  | .networkFailure m => .error (.network m)
  | .response status jsonBody textBody =>
      if 200 ≤ status ∧ status < 300 then
        .ok (extractText (jsonBody.getD (Js.obj [])))
      else .error (.upstream status textBody)

/-! ## Presence indicator (`normalizeLoadingSeconds`, part_000 lines 143–148) -/

/-- A JS number as relevant here: finite (rational) or non-finite. -/
inductive JsNum where
  | nan
  | posInf
  | negInf
  | finite (q : ℚ)

/-- `Number.isFinite`. -/
def jsIsFinite : JsNum → Bool
  | .finite _ => true
  | _ => false

/-- The `allowed` array of `normalizeLoadingSeconds`. -/
def allowedSeconds : List ℚ := [5, 10, 15, 20, 25, 30, 35, 40, 45, 50, 55, 60]

/-- `normalizeLoadingSeconds(value)`. -/
def normalizeLoadingSeconds (v : JsNum) : ℚ :=
  if jsIsFinite v = false then 20
  else
    match v with
    | .finite q => if q ∈ allowedSeconds then q else 20
    | _ => 20

/-! ## Event orchestration (the `setImmediate` loop, part_000 lines 241–323)

`processEvent` returns the trace of outbound HTTP calls one event's
processing performs, in program order, each tagged with the success bit
the environment hands back.  The `Oracle` fixes the environment's answer
for each call site; the payload of the completion request (model, system
prompt, temperature) is elided — only the forwarded user text is kept. -/

/-- One outbound HTTP call made while processing an event. -/
inductive TraceEntry where
  | loading (chatId : Js) (seconds : ℚ) (ok : Bool)
  | completion (timeoutMs : Int) (userText : Js)
  | reply (token : Js) (text : String) (ok : Bool)
  | push (recipient : Js) (text : String) (ok : Bool)

/-- The configuration constants the loop reads. -/
structure Config where
  loadingSeconds : ℚ
  usePush : Bool
  shortMs : Int
  longMs : Int
  pendingText : String
  failText : String

/-- Environment outcomes for each call site of one event's processing. -/
structure Oracle where
  loadingOk : Bool
  short : FetchResult
  replyMainOk : Bool
  pendingOk : Bool
  long : FetchResult
  pushMainOk : Bool
  pushFailOk : Bool
  fallbackOk : Bool

/-- The hardcoded placeholder reply `"（沒有回覆內容）"`. -/
def placeholderText : String := "（沒有回覆內容）"

/-- `aiText || placeholder`. -/
def orPlaceholder (t : String) : String := if t == "" then placeholderText else t

/-- The event filter (lines 246–247): only `type == "message"` with
`message.type == "text"` is processed. -/
def isActionable (e : Js) : Bool :=
  (match jsField e "type" with
   | some (Js.str t) => t == "message"
   | _ => false) &&
  (match (jsField e "message").bind (fun m => jsField m "type") with
   | some (Js.str t) => t == "text"
   | _ => false)

/-- `event.message.text ?? ""`. -/
def eventText (e : Js) : Js :=
  orNullish ((jsField e "message").bind (fun m => jsField m "text")) (Js.str "")

/-- `event.source ?? {}`. -/
def eventSource (e : Js) : Js := orNullish (jsField e "source") (Js.obj [])

/-- `source.userId ?? ""`. -/
def eventUserId (e : Js) : Js := orNullish (jsField (eventSource e) "userId") (Js.str "")

/-- `event.replyToken ?? ""`. -/
def eventReplyToken (e : Js) : Js := orNullish (jsField e "replyToken") (Js.str "")

/-- The detached presence call (lines 254–258): fired iff the configured
seconds are positive and the userId is truthy; `startLineLoading` then fires
one loading request with the normalized seconds, and its failure is
swallowed. -/
def presencePart (cfg : Config) (o : Oracle) (uid : Js) : List TraceEntry :=
  if 0 < cfg.loadingSeconds ∧ jsTruthy uid then
    [.loading uid (normalizeLoadingSeconds (.finite cfg.loadingSeconds)) o.loadingOk]
  else []

/-- The generic fallback (lines 313–320): one `replyLine(replyToken,
failText)` attempt whose own failure is swallowed; `replyLine` is a no-op
when the token is empty. -/
def fallbackPart (o : Oracle) (tok : Js) (failText : String) : List TraceEntry :=
  if jsTruthy tok then [.reply tok failText o.fallbackOk] else []

/-- The final `pushLine(userId, failText)` attempt (lines 298–305), a no-op
on an empty recipient, its own failure swallowed. -/
def pushFailPart (o : Oracle) (uid : Js) (failText : String) : List TraceEntry :=
  if jsTruthy uid then [.push uid failText o.pushFailOk] else []

/-- The deferred long-deadline flow (lines 286–306): one long-deadline
completion call; on success `pushLine(userId, aiText || placeholder)`, and on
any failure (of the long call or of that push) `pushLine(userId, failText)`. -/
def pushFlowPart (cfg : Config) (o : Oracle) (uid txt : Js) : List TraceEntry :=
  .completion cfg.longMs txt ::
    match postToOpenClaw cfg.longMs o.long with
    | .ok aiText =>
        if jsTruthy uid then
          .push uid (orPlaceholder aiText) o.pushMainOk ::
            (if o.pushMainOk then [] else pushFailPart o uid cfg.failText)
        else []
    | .error _ => pushFailPart o uid cfg.failText

/-- Processing of one inbound event (the body of the `for` loop, lines
242–322): filter, detached presence call, short-deadline completion, then
reply / push-on-timeout / fallback exactly as in the source. -/
def processEvent (cfg : Config) (o : Oracle) (e : Js) : List TraceEntry :=
  if isActionable e then
    presencePart cfg o (eventUserId e) ++
      (TraceEntry.completion cfg.shortMs (eventText e) ::
        match postToOpenClaw cfg.shortMs o.short with
        | .ok aiText =>
            if jsTruthy (eventReplyToken e) then
              TraceEntry.reply (eventReplyToken e) (orPlaceholder aiText) o.replyMainOk ::
                (if o.replyMainOk then []
                 else fallbackPart o (eventReplyToken e) cfg.failText)
            else []
        | .error err =>
            if cfg.usePush ∧ jsTruthy (eventUserId e) ∧ isTimeoutError err then
              (if jsTruthy (eventReplyToken e) then
                TraceEntry.reply (eventReplyToken e) cfg.pendingText o.pendingOk ::
                  (if o.pendingOk then pushFlowPart cfg o (eventUserId e) (eventText e)
                   else fallbackPart o (eventReplyToken e) cfg.failText)
              else pushFlowPart cfg o (eventUserId e) (eventText e))
            else fallbackPart o (eventReplyToken e) cfg.failText)
  else []

/-- Processing of a whole batch: each event independently, in order, with
its own environment outcomes. -/
def processBatch (cfg : Config) (jobs : List (Oracle × Js)) : List TraceEntry :=
  (jobs.map (fun j => processEvent cfg j.1 j.2)).flatten

/-! ## Webhook endpoint (`app.post("/webhook/line")`, part_000 lines 222–329) -/

/-- `Array.isArray(body.events) ? body.events : []` over `req.body || {}`. -/
def jsEvents (body : Js) : List Js :=
  match jsField (if jsTruthy body then body else Js.obj []) "events" with
  | some (Js.arr l) => l
  | _ => []

/-- The endpoint up to (and including) sending the HTTP response: returns
the status sent and the list of events handed to the detached
`setImmediate` loop (processed later by `processBatch`, never before the
response).  `parsed` is the middleware's JSON parse of `rawBody`; a thrown
exception before the response (`none` from the verifier) yields `500`. -/
def receiveBatch (secret : List Nat) (rawBody : Option (List Nat)) (sig : List Nat)
    (parsed : Js) : Nat × List Js :=
  match rawBody with
  | none => (403, [])
  | some b =>
      match verifySignature secret b sig with
      | some true => (200, jsEvents parsed)
      | some false => (403, [])
      | none => (500, [])

/-! ## Sample values for concrete instantiations -/

/-- A well-formed inbound text-message event. -/
def sampleEvent : Js :=
  Js.obj [("type", Js.str "message"),
          ("message", Js.obj [("type", Js.str "text"), ("text", Js.str "hello")]),
          ("source", Js.obj [("userId", Js.str "U1")]),
          ("replyToken", Js.str "R1")]

/-- A configuration with push-on-timeout enabled and no presence indicator. -/
def sampleConfig : Config :=
  { loadingSeconds := 0, usePush := true, shortMs := 15000, longMs := 60000,
    pendingText := "pending", failText := "fail" }

/-- A completion-backend JSON body `{choices:[{message:{content:"hi"}}]}`. -/
def sampleHiData : Js :=
  Js.obj [("choices", Js.arr [Js.obj [("message", Js.obj [("content", Js.str "hi")])]])]

/-! ## C7 — loading seconds normalization -/

/-- C7: `normalizeLoadingSeconds` always lands in the discrete set
`{5,10,…,60}`: a member of the set is returned unchanged, non-finite input
snaps to the default `20`, and any other (out-of-range) finite input snaps
to `20`; being a total function, it never throws. -/
theorem normalizeLoadingSeconds_spec :
    (∀ v, normalizeLoadingSeconds v ∈ allowedSeconds) ∧
      (∀ q ∈ allowedSeconds, normalizeLoadingSeconds (.finite q) = q) ∧
      (∀ v, jsIsFinite v = false → normalizeLoadingSeconds v = 20) ∧
      (∀ q, q ∉ allowedSeconds → normalizeLoadingSeconds (.finite q) = 20) := by
  have h20 : (20 : ℚ) ∈ allowedSeconds := by
    unfold allowedSeconds
    norm_num
  refine ⟨?_, ?_, ?_, ?_⟩
  · intro v
    rcases v with _ | _ | _ | q
    · exact h20
    · exact h20
    · exact h20
    · unfold normalizeLoadingSeconds
      simp only [jsIsFinite]
      split
      · exact h20
      · split
        · assumption
        · exact h20
  · intro q hq
    unfold normalizeLoadingSeconds
    simp [jsIsFinite, hq]
  · intro v hv
    unfold normalizeLoadingSeconds
    rw [if_pos hv]
  · intro q hq
    unfold normalizeLoadingSeconds
    simp [jsIsFinite, hq]

/-- Witness for C7 at concrete inputs: `25` is kept, `NaN` and `7` snap
to `20`. -/
theorem normalizeLoadingSeconds_spec_witness :
    normalizeLoadingSeconds (.finite 25) ∈ allowedSeconds ∧
      normalizeLoadingSeconds (.finite 25) = 25 ∧
      normalizeLoadingSeconds .nan = 20 ∧
      normalizeLoadingSeconds (.finite 7) = 20 :=
  ⟨normalizeLoadingSeconds_spec.1 _,
   normalizeLoadingSeconds_spec.2.1 25 (by unfold allowedSeconds; norm_num),
   normalizeLoadingSeconds_spec.2.2.1 .nan rfl,
   normalizeLoadingSeconds_spec.2.2.2 7 (by unfold allowedSeconds; norm_num)⟩

/-! ## C8 — non-actionable events produce no outbound calls -/

/-- C8: an event whose `type` is not `"message"` or whose `message.type` is
not `"text"` produces zero outbound HTTP calls (no completion, reply, push,
or presence call), and removing it from a batch leaves the sibling events'
combined trace unchanged. -/
theorem nonActionable_no_calls (cfg : Config) (o : Oracle) (e : Js)
    (h : isActionable e = false) :
    processEvent cfg o e = [] ∧
      ∀ jobs1 jobs2, processBatch cfg (jobs1 ++ (o, e) :: jobs2) =
        processBatch cfg jobs1 ++ processBatch cfg jobs2 := by
  have h1 : processEvent cfg o e = [] := by
    unfold processEvent
    rw [if_neg]
    rw [h]
    simp
  refine ⟨h1, ?_⟩
  intro jobs1 jobs2
  unfold processBatch
  simp [h1]

/-- Witness for C8: a `"follow"` event produces no calls. -/
theorem nonActionable_no_calls_witness :
    isActionable (Js.obj [("type", Js.str "follow")]) = false ∧
      processEvent sampleConfig
        ⟨true, .abortError, true, true, .abortError, true, true, true⟩
        (Js.obj [("type", Js.str "follow")]) = [] :=
  ⟨by decide,
   (nonActionable_no_calls sampleConfig _ _ (by decide)).1⟩

/-! ## C2 — the webhook endpoint -/

/-- C2: `receiveBatch` responds `403` with no downstream work scheduled when
the raw body is missing or the verifier rejects; otherwise it responds `200`
with the batch's events scheduled for the detached loop (the status is
computed before and independently of any event processing — `receiveBatch`
consults no outbound-call outcome); it responds `500` only on an exception
thrown before the response, and since the verifier never throws this never
happens. -/
theorem receiveBatch_spec (secret : List Nat) (rawBody : Option (List Nat))
    (sig : List Nat) (parsed : Js) :
    (rawBody = none → receiveBatch secret rawBody sig parsed = (403, [])) ∧
      (∀ b, rawBody = some b → verifySignature secret b sig ≠ some true →
        receiveBatch secret rawBody sig parsed = (403, [])) ∧
      (∀ b, rawBody = some b → verifySignature secret b sig = some true →
        receiveBatch secret rawBody sig parsed = (200, jsEvents parsed)) ∧
      (receiveBatch secret rawBody sig parsed).1 ≠ 500 := by
  refine ⟨?_, ?_, ?_, ?_⟩
  · intro h
    subst h
    rfl
  · intro b hb hv
    subst hb
    rcases hs : verifySignature secret b sig with _ | bv
    · have := verifySignature_isSome secret b sig
      rw [hs] at this
      simp at this
    · rcases bv with _ | _
      · simp [receiveBatch, hs]
      · exact absurd hs hv
  · intro b hb hv
    subst hb
    simp [receiveBatch, hv]
  · rcases rawBody with _ | b
    · simp [receiveBatch]
    · rcases hs : verifySignature secret b sig with _ | bv
      · have := verifySignature_isSome secret b sig
        rw [hs] at this
        simp at this
      · rcases bv with _ | _
        · simp [receiveBatch, hs]
        · simp [receiveBatch, hs]

/-- Witness for C2: a missing raw body is rejected with `403`, and a
correctly signed body is accepted with `200` and its events scheduled. -/
theorem receiveBatch_spec_witness :
    receiveBatch (strBytes "s") none (strBytes "sig") (Js.obj []) = (403, []) ∧
      receiveBatch (strBytes "s") (some [])
        (strBytes "ZOygfM5nkpw1fWPQpK7CB+d0gAQDKYkU/ATojOAqxJ8=")
        (Js.obj [("events", Js.arr [sampleEvent])]) = (200, [sampleEvent]) := by
  constructor
  · exact (receiveBatch_spec (strBytes "s") none (strBytes "sig") (Js.obj [])).1 rfl
  · rw [(receiveBatch_spec (strBytes "s") (some []) _ _).2.2.1 [] rfl (by decide)]
    rfl

/-! ## C6 — reply-text extraction -/

/-- `undefined` or `null` (what `??` skips over). -/
def isNullishOpt : Option Js → Bool
  | none => true
  | some .null => true
  | some _ => false

theorem orNullish_of_nullish (o : Option Js) (d : Js) (h : isNullishOpt o = true) :
    orNullish o d = d := by
  rcases o with _ | v
  · rfl
  · rcases v with _ | _ | _ | _ | _ | _ <;> simp_all [isNullishOpt, orNullish]

theorem orNullish_str (o : Option Js) (d : Js) (s : String)
    (h : o = some (Js.str s)) : orNullish o d = Js.str s := by
  subst h
  rfl

/-- The oracle of an event whose short completion call succeeds with the
`{choices:[{message:{content:"hi"}}]}` body. -/
def sampleOkOracle : Oracle :=
  ⟨true, .response 200 (some sampleHiData) "", true, true, .abortError, true, true, true⟩

/-- C6: on a 2xx backend response the completion client never fails: it
returns the trimmed `choices[0].message.content` when that is present (and
non-null), else the trimmed `choices[0].text`, else the empty string; and
for a backend answering `{choices:[{message:{content:"hi"}}]}` the reply the
orchestrator sends carries exactly the text `"hi"`. -/
theorem extraction_spec :
    (∀ data s, contentChain data = some (Js.str s) → extractText data = jsTrim s) ∧
      (∀ data s, isNullishOpt (contentChain data) = true →
        textChain data = some (Js.str s) → extractText data = jsTrim s) ∧
      (∀ data, isNullishOpt (contentChain data) = true →
        isNullishOpt (textChain data) = true → extractText data = "") ∧
      (∀ ms status jb tb, 200 ≤ status → status < 300 →
        postToOpenClaw ms (.response status jb tb) =
          .ok (extractText (jb.getD (Js.obj [])))) ∧
      processEvent sampleConfig sampleOkOracle sampleEvent =
        [.completion 15000 (Js.str "hello"), .reply (Js.str "R1") "hi" true] := by
  refine ⟨?_, ?_, ?_, ?_, ?_⟩
  · intro data s h
    unfold extractText
    rw [orNullish_str _ _ _ h]
    simp [jsToString]
  · intro data s hc ht
    unfold extractText
    rw [orNullish_of_nullish _ _ hc, orNullish_str _ _ _ ht]
    simp [jsToString]
  · intro data hc ht
    unfold extractText
    rw [orNullish_of_nullish _ _ hc, orNullish_of_nullish _ _ ht]
    simp [jsToString]
    rfl
  · intro ms status jb tb h1 h2
    simp only [postToOpenClaw]
    rw [if_pos ⟨h1, h2⟩]
  · simp [processEvent, isActionable, presencePart, postToOpenClaw, extractText,
      contentChain, textChain, choice0, jsField, jsIndex, orNullish, jsToString,
      jsTrim, jsWhitespace, orPlaceholder, eventText, eventUserId, eventSource,
      eventReplyToken, jsTruthy, sampleEvent, sampleConfig, sampleHiData,
      sampleOkOracle]

/-- Witness for C6 at concrete response bodies: content `"hi"`, the
`text`-shape fallback, and the all-fields-missing case. -/
theorem extraction_spec_witness :
    extractText sampleHiData = jsTrim "hi" ∧
      extractText (Js.obj [("choices", Js.arr [Js.obj [("text", Js.str "yo")]])]) =
        jsTrim "yo" ∧
      extractText (Js.obj []) = "" ∧
      postToOpenClaw 15000 (.response 204 none "") = .ok (extractText (Js.obj [])) :=
  ⟨extraction_spec.1 sampleHiData "hi" (by rfl),
   extraction_spec.2.1 _ "yo" (by rfl) (by rfl),
   extraction_spec.2.2.1 (Js.obj []) (by rfl) (by rfl),
   extraction_spec.2.2.2.1 15000 204 none "" (by decide) (by decide)⟩

/-! ## C4 — distinguishing the timeout failure -/

theorem startsWithChars_self (sub rest : List Char) :
    startsWithChars sub (sub ++ rest) = true := by
  induction sub with
  | nil => rfl
  | cons a as ih => simp [startsWithChars, ih]

theorem containsSub_self_append (sub rest : List Char) :
    containsSub sub (sub ++ rest) = true := by
  rcases sub with _ | ⟨a, as⟩
  · rcases rest with _ | ⟨c, tl⟩
    · rfl
    · simp [containsSub, startsWithChars]
  · show containsSub (a :: as) (a :: (as ++ rest)) = true
    simp [containsSub, startsWithChars, startsWithChars_self]

theorem isTimeoutError_timeout (ms : Int) : isTimeoutError (OcError.timeout ms) = true := by
  show containsSub ("OpenClaw timeout".toList)
    (("OpenClaw timeout after " ++ toString ms ++ "ms").toList) = true
  have h1 : ("OpenClaw timeout after " ++ toString ms ++ "ms").toList
      = ("OpenClaw timeout after ").toList ++ (toString ms).toList ++ ("ms").toList := rfl
  have h2 : ("OpenClaw timeout after ").toList
      = ("OpenClaw timeout").toList ++ (" after ").toList := by decide
  rw [h1, h2, List.append_assoc, List.append_assoc]
  exact containsSub_self_append _ _

/-- Number of completion-backend calls in a trace. -/
def completionCount (tr : List TraceEntry) : Nat :=
  tr.countP (fun t =>
    match t with
    | .completion _ _ => true
    | _ => false)

theorem completionCount_presencePart (cfg : Config) (o : Oracle) (uid : Js) :
    completionCount (presencePart cfg o uid) = 0 := by
  unfold presencePart
  split <;> simp [completionCount]

theorem completionCount_pushFlowPart (cfg : Config) (o : Oracle) (uid txt : Js) :
    completionCount (pushFlowPart cfg o uid txt) = 1 := by
  unfold pushFlowPart pushFailPart
  rcases postToOpenClaw cfg.longMs o.long with t | err <;>
    split <;> split <;> simp_all [completionCount]

theorem completionCount_fallbackPart (o : Oracle) (tok : Js) (ft : String) :
    completionCount (fallbackPart o tok ft) = 0 := by
  unfold fallbackPart
  split <;> simp [completionCount]

/-- C4 (counterexample): the timeout failure is NOT distinguishable from
every `UpstreamError` whatever body the backend returns — a non-2xx response
whose body contains the text `"OpenClaw timeout"` is classified as a
timeout, and the orchestrator then takes the push-fallback path (pending
reply, long-deadline retry, push) even though the failure was an upstream
error, not a timeout. -/
theorem timeout_confusion_counterexample :
    isTimeoutError (OcError.upstream 502 "OpenClaw timeout after 15000ms") = true ∧
      processEvent sampleConfig
        ⟨true, .response 502 none "OpenClaw timeout after 15000ms", true, true,
         .response 200 (some sampleHiData) "", true, true, true⟩ sampleEvent =
        [.completion 15000 (Js.str "hello"), .reply (Js.str "R1") "pending" true,
         .completion 60000 (Js.str "hello"), .push (Js.str "U1") "hi" true] := by
  have hte : isTimeoutError (OcError.upstream 502 "OpenClaw timeout after 15000ms")
      = true := by decide
  refine ⟨hte, ?_⟩
  simp [processEvent, isActionable, presencePart, postToOpenClaw, extractText,
    contentChain, textChain, choice0, jsField, jsIndex, orNullish, jsToString,
    jsTrim, jsWhitespace, orPlaceholder, eventText, eventUserId, eventSource,
    eventReplyToken, jsTruthy, sampleEvent, sampleConfig, sampleHiData, hte,
    pushFlowPart, pushFailPart, fallbackPart]

/-- C4 (amended): `postToOpenClaw` turns a cancelled (aborted) call into the
distinguished timeout `Error` and every timeout failure is classified as
such; an `UpstreamError` or a generic network failure is distinguished from
it provided its message (which for an `UpstreamError` embeds the upstream
status and body) does not itself contain the substring
`"OpenClaw timeout"`; and — in a run where the short call failed and the
push-on-timeout conditions (flag set, userId present, reply token present,
pending reply succeeds) hold — the orchestrator takes the push-fallback
path (a second, long-deadline completion call) exactly when the failure is
classified as a timeout. -/
theorem timeout_distinction_amended (cfg : Config) (o : Oracle) (e : Js) (err : OcError)
    (hact : isActionable e = true)
    (hpush : cfg.usePush = true)
    (huid : jsTruthy (eventUserId e) = true)
    (htok : jsTruthy (eventReplyToken e) = true)
    (hpend : o.pendingOk = true)
    (hshort : postToOpenClaw cfg.shortMs o.short = .error err) :
    (∀ ms : Int, postToOpenClaw ms .abortError = .error (.timeout ms)) ∧
      (∀ ms : Int, isTimeoutError (.timeout ms) = true) ∧
      (∀ status body,
        strIncludes (errorMessage (.upstream status body)) "OpenClaw timeout" = false →
          isTimeoutError (.upstream status body) = false) ∧
      (∀ msg, strIncludes msg "OpenClaw timeout" = false →
        isTimeoutError (.network msg) = false) ∧
      (completionCount (processEvent cfg o e) = 2 ↔ isTimeoutError err = true) := by
  refine ⟨fun ms => rfl, isTimeoutError_timeout, fun status body h => h,
    fun msg h => h, ?_⟩
  have h1 := completionCount_presencePart cfg o (eventUserId e)
  rcases hte : isTimeoutError err with _ | _
  · have htr : processEvent cfg o e =
        presencePart cfg o (eventUserId e) ++
          (TraceEntry.completion cfg.shortMs (eventText e) ::
            fallbackPart o (eventReplyToken e) cfg.failText) := by
      simp [processEvent, hact, hshort, hte]
    have h2 := completionCount_fallbackPart o (eventReplyToken e) cfg.failText
    have hc : completionCount (processEvent cfg o e) = 1 := by
      rw [htr]
      unfold completionCount at h1 h2 ⊢
      simp [List.countP_append, List.countP_cons, h1, h2]
    rw [hc]
    simp
  · have htr : processEvent cfg o e =
        presencePart cfg o (eventUserId e) ++
          (TraceEntry.completion cfg.shortMs (eventText e) ::
            TraceEntry.reply (eventReplyToken e) cfg.pendingText o.pendingOk ::
            pushFlowPart cfg o (eventUserId e) (eventText e)) := by
      simp [processEvent, hact, hshort, hte, hpush, huid, htok, hpend]
    have h2 := completionCount_pushFlowPart cfg o (eventUserId e) (eventText e)
    have hc : completionCount (processEvent cfg o e) = 2 := by
      rw [htr]
      unfold completionCount at h1 h2 ⊢
      simp [List.countP_append, List.countP_cons, h1, h2]
    rw [hc]
    simp

/-- The oracle of an event whose short completion call times out and whose
long-deadline retry succeeds with the `"hi"` body. -/
def samplePushOracle : Oracle :=
  ⟨true, .abortError, true, true, .response 200 (some sampleHiData) "", true, true, true⟩

/-- Witness for the amended C4 theorem: with the short call timing out and
all push-on-timeout conditions holding, the push-fallback path (second
completion call) is taken, matching the timeout classification. -/
theorem timeout_distinction_amended_witness :
    isActionable sampleEvent = true ∧
      postToOpenClaw sampleConfig.shortMs samplePushOracle.short =
        .error (.timeout 15000) ∧
      (completionCount (processEvent sampleConfig samplePushOracle sampleEvent) = 2 ↔
        isTimeoutError (.timeout 15000) = true) :=
  ⟨by decide, rfl,
   (timeout_distinction_amended sampleConfig samplePushOracle sampleEvent
      (.timeout 15000) (by decide) rfl (by decide) (by decide) rfl rfl).2.2.2.2⟩

/-! ## C3 — the push-on-timeout flow -/

/-- The push-on-timeout oracle whose pending reply itself fails. -/
def samplePendFailOracle : Oracle :=
  ⟨true, .abortError, true, false, .response 200 (some sampleHiData) "", true, true, true⟩

/-- `sampleEvent` without a reply token. -/
def sampleEventNoToken : Js :=
  Js.obj [("type", Js.str "message"),
          ("message", Js.obj [("type", Js.str "text"), ("text", Js.str "hello")]),
          ("source", Js.obj [("userId", Js.str "U1")])]

/-- C3 (counterexample): under the claim's conditions (short call fails with
Timeout, push-on-timeout enabled, userId present) the stated sequence does
NOT always happen.  (a) If the pending reply itself fails, no long-deadline
retry and no push occur — the generic fallback reply runs instead.  (b) If
the event carries no reply token, no `reply(pendingText)` is performed (the
dispatcher no-ops), so the performed sequence does not start with that
reply. -/
theorem pushOnTimeout_flow_counterexample :
    sampleConfig.usePush = true ∧
      jsTruthy (eventUserId sampleEvent) = true ∧
      postToOpenClaw sampleConfig.shortMs FetchResult.abortError =
        .error (.timeout 15000) ∧
      isTimeoutError (.timeout 15000) = true ∧
      processEvent sampleConfig samplePendFailOracle sampleEvent =
        [.completion 15000 (Js.str "hello"), .reply (Js.str "R1") "pending" false,
         .reply (Js.str "R1") "fail" true] ∧
      processEvent sampleConfig samplePushOracle sampleEventNoToken =
        [.completion 15000 (Js.str "hello"), .completion 60000 (Js.str "hello"),
         .push (Js.str "U1") "hi" true] := by
  refine ⟨rfl, by decide, rfl, by decide, ?_, ?_⟩
  · simp [processEvent, isActionable, presencePart, postToOpenClaw,
      orPlaceholder, eventText, eventUserId, eventSource, eventReplyToken,
      jsField, jsIndex, orNullish, jsTruthy, sampleEvent, sampleConfig,
      samplePendFailOracle, fallbackPart, isTimeoutError_timeout]
  · simp [processEvent, isActionable, presencePart, postToOpenClaw, extractText,
      contentChain, textChain, choice0, jsField, jsIndex, orNullish, jsToString,
      jsTrim, jsWhitespace, orPlaceholder, eventText, eventUserId, eventSource,
      eventReplyToken, jsTruthy, sampleEventNoToken, sampleConfig, sampleHiData,
      samplePushOracle, pushFlowPart, pushFailPart, isTimeoutError_timeout]

/-- C3 (amended): when the short-deadline call fails with a failure
classified as Timeout, push-on-timeout is enabled, userId is present, the
event carries a reply token, and the pending reply succeeds, the
orchestrator performs exactly `reply(replyToken, pendingText)` and then
re-invokes the completion client with the long deadline; on success it
performs `push(userId, text-or-placeholder)` (followed by a `failText` push
only if that push itself fails) and sends no fallback reply; on any failure
of the long retry it attempts `push(userId, failText)` and terminates
regardless of whether that final push succeeds, with no further reply or
retry. -/
theorem pushOnTimeout_flow (cfg : Config) (o : Oracle) (e : Js) (err : OcError)
    (hact : isActionable e = true)
    (hpush : cfg.usePush = true)
    (huid : jsTruthy (eventUserId e) = true)
    (htok : jsTruthy (eventReplyToken e) = true)
    (hshort : postToOpenClaw cfg.shortMs o.short = .error err)
    (htimeout : isTimeoutError err = true)
    (hpend : o.pendingOk = true) :
    processEvent cfg o e =
      presencePart cfg o (eventUserId e) ++
        (TraceEntry.completion cfg.shortMs (eventText e) ::
          TraceEntry.reply (eventReplyToken e) cfg.pendingText true ::
          TraceEntry.completion cfg.longMs (eventText e) ::
          (match postToOpenClaw cfg.longMs o.long with
           | .ok t =>
              TraceEntry.push (eventUserId e) (orPlaceholder t) o.pushMainOk ::
                (if o.pushMainOk then []
                 else [TraceEntry.push (eventUserId e) cfg.failText o.pushFailOk])
           | .error _ => [TraceEntry.push (eventUserId e) cfg.failText o.pushFailOk])) := by
  have htr : processEvent cfg o e =
      presencePart cfg o (eventUserId e) ++
        (TraceEntry.completion cfg.shortMs (eventText e) ::
          TraceEntry.reply (eventReplyToken e) cfg.pendingText true ::
          pushFlowPart cfg o (eventUserId e) (eventText e)) := by
    simp [processEvent, hact, hshort, htimeout, hpush, huid, htok, hpend]
  rw [htr]
  unfold pushFlowPart pushFailPart
  rcases postToOpenClaw cfg.longMs o.long with t | e2
  · simp [huid]
  · simp [huid]

/-- Witness for the amended C3 theorem: concrete run where the long retry
succeeds with `"hi"` — the trace is exactly pending reply then push. -/
theorem pushOnTimeout_flow_witness :
    isTimeoutError (.timeout 15000) = true ∧
      samplePushOracle.pendingOk = true ∧
      processEvent sampleConfig samplePushOracle sampleEvent =
        [.completion 15000 (Js.str "hello"), .reply (Js.str "R1") "pending" true,
         .completion 60000 (Js.str "hello"), .push (Js.str "U1") "hi" true] := by
  refine ⟨by decide, rfl, ?_⟩
  rw [pushOnTimeout_flow sampleConfig samplePushOracle sampleEvent (.timeout 15000)
    (by decide) rfl (by decide) (by decide) rfl (by decide) rfl]
  simp [presencePart, sampleConfig, samplePushOracle, postToOpenClaw, extractText,
    contentChain, textChain, choice0, jsField, jsIndex, orNullish, jsToString,
    jsTrim, jsWhitespace, orPlaceholder, sampleHiData, sampleEvent, eventText,
    eventUserId, eventSource, eventReplyToken, jsTruthy]

/-! ## C10 — pending-reply failure aborts the push path -/

/-- C10: when push-on-timeout would apply (enabled, userId present, short
call failed with a Timeout-classified error, reply token present) but the
pending reply itself fails, the push path is aborted entirely: no
long-deadline retry and no push are attempted; the error propagates to the
generic fallback, which attempts exactly one `reply(replyToken, failText)`
with the same reply token and terminates whether or not that attempt
succeeds. -/
theorem pendingReplyFailure_aborts_push (cfg : Config) (o : Oracle) (e : Js)
    (err : OcError)
    (hact : isActionable e = true)
    (hpush : cfg.usePush = true)
    (huid : jsTruthy (eventUserId e) = true)
    (htok : jsTruthy (eventReplyToken e) = true)
    (hshort : postToOpenClaw cfg.shortMs o.short = .error err)
    (htimeout : isTimeoutError err = true)
    (hpend : o.pendingOk = false) :
    processEvent cfg o e =
      presencePart cfg o (eventUserId e) ++
        [TraceEntry.completion cfg.shortMs (eventText e),
         TraceEntry.reply (eventReplyToken e) cfg.pendingText false,
         TraceEntry.reply (eventReplyToken e) cfg.failText o.fallbackOk] := by
  simp [processEvent, hact, hshort, htimeout, hpush, huid, htok, hpend, fallbackPart]

/-- Witness for C10: the concrete pending-reply-failure run. -/
theorem pendingReplyFailure_aborts_push_witness :
    samplePendFailOracle.pendingOk = false ∧
      processEvent sampleConfig samplePendFailOracle sampleEvent =
        [.completion 15000 (Js.str "hello"), .reply (Js.str "R1") "pending" false,
         .reply (Js.str "R1") "fail" true] := by
  refine ⟨rfl, ?_⟩
  rw [pendingReplyFailure_aborts_push sampleConfig samplePendFailOracle sampleEvent
    (.timeout 15000) (by decide) rfl (by decide) (by decide) rfl (by decide) rfl]
  simp [presencePart, sampleConfig, samplePendFailOracle, sampleEvent, eventText,
    eventUserId, eventSource, eventReplyToken, jsField, jsIndex, orNullish, jsTruthy]

/-! ## C5 — the reply token is consumed at most once -/

/-- Is this trace entry a reply-endpoint call? -/
def isReplyEntry : TraceEntry → Bool
  | .reply _ _ _ => true
  | _ => false

/-- Is this trace entry a SUCCESSFUL reply-endpoint call? -/
def isOkReply : TraceEntry → Bool
  | .reply _ _ ok => ok
  | _ => false

/-- After every successful reply in the trace, no further reply call of any
kind occurs. -/
def noReplyAfterOkReply : List TraceEntry → Bool
  | [] => true
  | t :: rest =>
      (if isOkReply t then rest.all (fun x => !isReplyEntry x) else true) &&
        noReplyAfterOkReply rest

theorem noReplyAfterOkReply_of_all (l : List TraceEntry)
    (h : l.all (fun x => !isReplyEntry x) = true) : noReplyAfterOkReply l = true := by
  induction l with
  | nil => rfl
  | cons t rest ih =>
    simp only [List.all_cons, Bool.and_eq_true] at h
    have hnot : isOkReply t = false := by
      cases t with
      | loading a b c => rfl
      | completion a b => rfl
      | push a b c => rfl
      | reply a b c => simp [isReplyEntry] at h
    simp [noReplyAfterOkReply, hnot, ih h.2]

theorem pushFlowPart_no_reply (cfg : Config) (o : Oracle) (uid txt : Js) :
    (pushFlowPart cfg o uid txt).all (fun x => !isReplyEntry x) = true := by
  unfold pushFlowPart pushFailPart
  rcases postToOpenClaw cfg.longMs o.long with t | e2 <;>
    (repeat' split) <;> simp [isReplyEntry]

theorem noReplyAfterOkReply_presence (cfg : Config) (o : Oracle) (uid : Js)
    (rest : List TraceEntry) :
    noReplyAfterOkReply (presencePart cfg o uid ++ rest) = noReplyAfterOkReply rest := by
  unfold presencePart
  split <;> simp [noReplyAfterOkReply, isOkReply]

theorem fallbackPart_nra (o : Oracle) (tok : Js) (ft : String) :
    noReplyAfterOkReply (fallbackPart o tok ft) = true := by
  unfold fallbackPart
  split <;> simp [noReplyAfterOkReply, isOkReply]

theorem pushFlowPart_nra (cfg : Config) (o : Oracle) (uid txt : Js) :
    noReplyAfterOkReply (pushFlowPart cfg o uid txt) = true :=
  noReplyAfterOkReply_of_all _ (pushFlowPart_no_reply cfg o uid txt)

theorem nra_completion_cons (ms : Int) (txt : Js) (rest : List TraceEntry) :
    noReplyAfterOkReply (TraceEntry.completion ms txt :: rest) =
      noReplyAfterOkReply rest := by
  simp [noReplyAfterOkReply, isOkReply]

theorem nra_okreply_cons (tok : Js) (s : String) (rest : List TraceEntry)
    (hall : rest.all (fun x => !isReplyEntry x) = true) :
    noReplyAfterOkReply (TraceEntry.reply tok s true :: rest) = true := by
  simp [noReplyAfterOkReply, isOkReply, hall, noReplyAfterOkReply_of_all rest hall]

/-- C5: per-event invariant — in every trace the orchestrator can produce
(any configuration, any environment outcomes, any event), once a reply call
has completed successfully no further reply call is attempted for that
event; all later communication, if any, is by push. -/
theorem reply_single_use (cfg : Config) (o : Oracle) (e : Js) :
    noReplyAfterOkReply (processEvent cfg o e) = true := by
  unfold processEvent
  split
  · rw [noReplyAfterOkReply_presence]
    split
    · -- short completion succeeded
      split
      · -- reply token truthy: reply once, fallback only if it failed
        rcases hr : o.replyMainOk with _ | _
        · simp [noReplyAfterOkReply, isOkReply, fallbackPart_nra]
        · simp [noReplyAfterOkReply, isOkReply, isReplyEntry]
      · simp [noReplyAfterOkReply, isOkReply]
    · -- short completion failed
      split
      · -- push-on-timeout branch
        split
        · -- token truthy: pending reply then push flow or fallback
          rcases hp : o.pendingOk with _ | _
          · simp [noReplyAfterOkReply, isOkReply, fallbackPart_nra]
          · rw [if_pos rfl, nra_completion_cons, nra_okreply_cons]
            exact pushFlowPart_no_reply cfg o _ _
        · rw [nra_completion_cons]
          exact pushFlowPart_nra cfg o _ _
      · simp [noReplyAfterOkReply, isOkReply, fallbackPart_nra]
  · rfl

end LineProxy
